import Mathlib

/-!
Shallow embedding of the TelegramMeet bot core
(src/Properties/TelegramBotMeetCore.py) and verification of the frozen
claims about it.

Modelling conventions:
* sqlite tables are lists of row structures; `INSERT OR IGNORE` on a
  UNIQUE pair becomes a guarded cons; `UPDATE ... WHERE` becomes `List.map`
  with a key test; `DELETE ... WHERE` becomes `List.filter`.
* python dicts (`admin_sessions`, `last_search_time`, `context.user_data`)
  are association lists keyed by the telegram user id.
* timestamps (`datetime...timestamp()`, sqlite `datetime`) are integers.
* `ORDER BY RANDOM() LIMIT 1` is modelled by a selection index `k`
  applied to the filtered list of eligible rows.
* an unhandled python exception (the `KeyError` in `delete_admin_by_name`)
  is a dedicated outcome constructor.
-/

namespace MeetBot

/-- Row of the `users` table (init_db): internal autoincrement `id`, unique
telegram id `tg_id`, nullable profile fields, `created_at` default (modelled
as 0 at insert), nullable `frozen_until`, `banned` flag, nullable
`ban_reason`. -/
structure UserRow where
  id : Int
  tg_id : Int
  name : Option String
  age : Option Int
  description : Option String
  photo_path : Option String
  created_at : Int
  frozen_until : Option Int
  banned : Bool
  ban_reason : Option String
deriving DecidableEq

/-- Row of the `admins` table: autoincrement `id`, unique `username`,
password hash and salt (opaque here), `is_super` flag. -/
structure AdminRow where
  id : Int
  username : String
  password_hash : String
  salt : String
  is_super : Bool
deriving DecidableEq

/-- Row of the `reports` table. -/
structure ReportRow where
  id : Int
  reporter_id : Int
  target_id : Int
  reason : String
  created_at : Int
  processed : Bool
deriving DecidableEq

/-- Entry of the in-memory `admin_sessions` dict:
`telegram_user_id -> {username, expires, is_super, db_admin_id}`. -/
structure AdminSession where
  username : String
  expires : Int
  is_super : Bool
  db_admin_id : Int
deriving DecidableEq

/-- Lookup in a python dict modelled as an association list
(`d.get(k)` / `k in d`). -/
def dictGet {α : Type} (m : List (Int × α)) (k : Int) : Option α :=
  (m.find? (fun p => p.1 == k)).map (·.2)

/-- Assignment `d[k] = v` in a python dict modelled as an association
list. -/
def dictSet {α : Type} (m : List (Int × α)) (k : Int) (v : α) : List (Int × α) :=
  (k, v) :: m.filter (fun p => !(p.1 == k))

/-- Subset of settings.ini read by the bot; `pythonIns` is the configured
owner identity, `none` when the key is missing or not an integer. -/
structure Settings where
  pythonIns : Option Int
deriving DecidableEq

/-- get_super_admin_id (lines 248-255): returns the configured id, or None
on a missing/invalid key. -/
def get_super_admin_id (cfg : Settings) : Option Int :=
  cfg.pythonIns

/-- admin_required (lines 288-301): the wrapped handler runs iff a session
entry exists for the actor and its expiry is not earlier than now
(the code denies when `sess['expires'] < now`). Returns `true` when the
handler runs. -/
def admin_required (sessions : List (Int × AdminSession)) (uid : Int) (now : Int) : Bool :=
  match dictGet sessions uid with
  | none => false
  | some sess => if sess.expires < now then false else true

/-- super_admin_required (lines 304-316): the wrapped handler runs iff the
actor id equals the configured owner id (`user_id != SUPER_ADMIN_ID`
denies; a missing configuration makes the comparison always fail). The
decorator reads neither `admin_sessions` nor any `admins` row. -/
def super_admin_required (cfg : Settings) (uid : Int) : Bool :=
  match get_super_admin_id cfg with
  | none => false
  | some sid => uid == sid

/-- get_admin_by_username (lines 270-285). -/
def get_admin_by_username (admins : List AdminRow) (username : String) : Option AdminRow :=
  admins.find? (fun a => a.username == username)

/-- delete_admin_from_db (lines 1088-1095): `DELETE FROM admins WHERE
username = ?`. -/
def delete_admin_from_db (admins : List AdminRow) (username : String) : List AdminRow :=
  admins.filter (fun a => !(a.username == username))

/-- Outcomes of the delete_admin_by_name handler: target username not
found (re-prompt), self-deletion refused (distinct message, re-prompt),
deletion performed, or the unhandled `KeyError` raised by
`admin_sessions[update.effective_user.id]` when the caller has no session
entry. -/
inductive DeleteAdminOutcome where
  | not_found
  | self_delete
  | deleted
  | key_error
deriving DecidableEq

/-- delete_admin_by_name (lines 1098-1114): looks up the target admin by
username; if found, indexes `admin_sessions` with the caller id (KeyError
when absent), refuses when the target row id equals the session's
`db_admin_id`, otherwise deletes the row. Returns the new admins table and
the outcome. -/
def delete_admin_by_name (admins : List AdminRow) (sessions : List (Int × AdminSession))
    (uid : Int) (username : String) : List AdminRow × DeleteAdminOutcome :=
  match get_admin_by_username admins username with
  | none => (admins, .not_found)
  | some target =>
    match dictGet sessions uid with
    | none => (admins, .key_error)
    | some sess =>
      if target.id == sess.db_admin_id then (admins, .self_delete)
      else (delete_admin_from_db admins username, .deleted)

/-- Guard decorator present on a handler registered in main. -/
inductive Guard where
  | unguarded
  | admin_gate
  | super_gate
deriving DecidableEq

/-- A top-level CommandHandler registration in main. -/
structure CommandRegistration where
  command : String
  guard : Guard
deriving DecidableEq

/-- Top-level `application.add_handler(CommandHandler(...))` registrations
in main (lines 1191-1197) together with the guard decorator carried by the
wrapped handler function (`start`, `admin_login`, `add_new_admin` and
`delete_admin_by_name` are all undecorated). -/
def main_command_handlers : List CommandRegistration :=
  [⟨"start", .unguarded⟩, ⟨"admin", .unguarded⟩,
   ⟨"add_admin", .unguarded⟩, ⟨"delete_admin", .unguarded⟩]

/-- add_like (lines 367-375): `INSERT OR IGNORE INTO likes (from_id,
to_id)`; the `created_at` column is never read by any query of the logic
and is omitted from the model. -/
def add_like (likes : List (Int × Int)) (from_id to_id : Int) : List (Int × Int) :=
  if (from_id, to_id) ∈ likes then likes else (from_id, to_id) :: likes

/-- check_mutual_like (lines 378-389): true iff both directed like rows
exist (the code checks (a, b) first and (b, a) only then). -/
def check_mutual_like (likes : List (Int × Int)) (a b : Int) : Bool :=
  decide ((a, b) ∈ likes) && decide ((b, a) ∈ likes)

/-- The "like" branch of profile_actions (lines 796-811): insert the like,
then check mutuality immediately on the same call path; the returned flag
is true exactly when the two match notifications (one message to each
party) are sent. -/
def like_step (likes : List (Int × Int)) (viewer target : Int) : List (Int × Int) × Bool :=
  let likes2 := add_like likes viewer target
  (likes2, check_mutual_like likes2 viewer target)

/-- Folds a sequence of like actions through like_step, collecting the
notification flag emitted by each action. -/
def run_likes : List (Int × Int) → List (Int × Int) → List (Int × Int) × List Bool
  | likes, [] => (likes, [])
  | likes, (v, t) :: rest =>
    let r := like_step likes v t
    let rr := run_likes r.1 rest
    (rr.1, r.2 :: rr.2)

/-- get_user_by_tg_id (lines 320-328): `SELECT * FROM users WHERE tg_id = ?`. -/
def get_user_by_tg_id (users : List UserRow) (tg_id : Int) : Option UserRow :=
  users.find? (fun u => u.tg_id == tg_id)

/-- get_user_by_id (lines 445-452): `SELECT * FROM users WHERE id = ?`,
a lookup by the internal autoincrement id. -/
def get_user_by_id (users : List UserRow) (user_id : Int) : Option UserRow :=
  users.find? (fun u => u.id == user_id)

/-- COALESCE(?, column) as used by the UPDATE of create_or_update_user. -/
def coalesce {α : Type} (supplied old : Option α) : Option α :=
  match supplied with
  | some x => some x
  | none => old

/-- The SET clause of the UPDATE in create_or_update_user applied to one
row: only the four profile columns are touched, each through COALESCE. -/
def apply_user_update (name : Option String) (age : Option Int)
    (description photo_path : Option String) (u : UserRow) : UserRow :=
  { u with
    name := coalesce name u.name
    age := coalesce age u.age
    description := coalesce description u.description
    photo_path := coalesce photo_path u.photo_path }

/-- Next value of the users autoincrement id column. -/
def next_user_id (users : List UserRow) : Int :=
  (users.map (·.id)).foldr max 0 + 1

/-- create_or_update_user (lines 331-352): UPDATE with COALESCE on the four
profile fields for rows with this tg_id when one exists, INSERT otherwise
(created_at takes the DB default, modelled as 0). -/
def create_or_update_user (users : List UserRow) (tg_id : Int) (name : Option String)
    (age : Option Int) (description photo_path : Option String) : List UserRow :=
  match get_user_by_tg_id users tg_id with
  | some _ =>
    users.map (fun u =>
      if u.tg_id == tg_id then apply_user_update name age description photo_path u else u)
  | none =>
    users ++ [⟨next_user_id users, tg_id, name, age, description, photo_path, 0, none, false, none⟩]

/-- mark_viewed (lines 355-364): `INSERT OR IGNORE INTO viewed`. -/
def mark_viewed (viewed : List (Int × Int)) (viewer_id viewed_id : Int) : List (Int × Int) :=
  if (viewer_id, viewed_id) ∈ viewed then viewed else (viewer_id, viewed_id) :: viewed

/-- The subquery `SELECT viewed_id FROM viewed WHERE viewer_id = ?`. -/
def viewed_by (viewed : List (Int × Int)) (viewer_id : Int) : List Int :=
  (viewed.filter (fun p => p.1 == viewer_id)).map (·.2)

/-- The WHERE clause of get_next_profile: the candidate differs from the
requester, was not viewed by the requester, is not frozen (or the freeze
lies strictly in the past) and is not banned. -/
def eligible (uid : Int) (viewed : List (Int × Int)) (now : Int) (u : UserRow) : Bool :=
  !(u.tg_id == uid) && !(decide (u.tg_id ∈ viewed_by viewed uid)) &&
    (match u.frozen_until with
     | none => true
     | some t => decide (t < now)) &&
    !u.banned

/-- get_next_profile (lines 392-416): the rows satisfying the WHERE clause,
`ORDER BY RANDOM() LIMIT 1`; the random order is modelled by an arbitrary
selection index k into the filtered list. -/
def get_next_profile (users : List UserRow) (uid : Int) (viewed : List (Int × Int))
    (now : Int) (k : Nat) : Option UserRow :=
  let elig := users.filter (eligible uid viewed now)
  elig[k % elig.length]?

/-- Next value of the reports autoincrement id column. -/
def next_report_id (reports : List ReportRow) : Int :=
  (reports.map (·.id)).foldr max 0 + 1

/-- add_report (lines 515-522): `INSERT INTO reports (reporter_id,
target_id, reason)`; processed defaults to 0 and created_at to the DB
clock (modelled as 0). -/
def add_report (reports : List ReportRow) (reporter_id target_id : Int)
    (reason : String) : List ReportRow :=
  reports ++ [⟨next_report_id reports, reporter_id, target_id, reason, 0, false⟩]

/-- Outcome of the save_report step. -/
inductive SaveReportOutcome where
  | saved
  | missing_target
deriving DecidableEq

/-- save_report (lines 834-847): reads report_target_id — the value that
handle_report_callback copied from user_data current_profile, i.e. the
reported profile's telegram id (find_pair line 740); with no stored target
it only apologizes, otherwise it calls add_report with that value. -/
def save_report (reports : List ReportRow) (reporter_id : Int)
    (report_target_id : Option Int) (reason : String) : List ReportRow × SaveReportOutcome :=
  match report_target_id with
  | none => (reports, .missing_target)
  | some t => (add_report reports reporter_id t reason, .saved)

/-- Rendering of one report row in the admin_view_reports branch of
handle_admin_callbacks (lines 966-993): the report is skipped
(`continue`) or a resolved profile is displayed, with the ban button bound
to that profile's internal id. -/
inductive ReportView where
  | skipped
  | displayed (profile : UserRow)
deriving DecidableEq

/-- Resolution of a report's stored target in the admin view: the stored
value is passed to get_user_by_id, i.e. looked up against users.id. -/
def admin_report_view (users : List UserRow) (r : ReportRow) : ReportView :=
  match get_user_by_id users r.target_id with
  | none => .skipped
  | some t => .displayed t

/-- Outcome of the save_age step: stay in EDITING_AGE with an error
prompt, or accept and end the conversation. -/
inductive AgeSaveOutcome where
  | reprompt_range
  | reprompt_not_number
  | accepted
deriving DecidableEq

/-- Python str.strip(): remove leading and trailing whitespace, modelled on
the character list of the string. -/
def strip_chars (s : String) : List Char :=
  ((s.data.dropWhile Char.isWhitespace).reverse.dropWhile Char.isWhitespace).reverse

/-- Value of a digit string. -/
def digits_to_nat (cs : List Char) : Nat :=
  cs.foldl (fun acc c => acc * 10 + (c.toNat - 48)) 0

/-- Python int(text.strip()) as called by save_age: an optional sign
followed by one or more digits parses; anything else raises ValueError,
modelled as none. -/
def parse_int (s : String) : Option Int :=
  match strip_chars s with
  | [] => none
  | '-' :: rest =>
    if rest ≠ [] ∧ rest.all Char.isDigit then some (-(digits_to_nat rest : Int)) else none
  | '+' :: rest =>
    if rest ≠ [] ∧ rest.all Char.isDigit then some ((digits_to_nat rest : Int)) else none
  | cs =>
    if cs.all Char.isDigit then some ((digits_to_nat cs : Int)) else none

/-- save_age (lines 650-664): parse the stripped text as an integer
(failure re-prompts EDITING_AGE), reject an age outside [16, 99]
(re-prompt), otherwise update the profile via create_or_update_user and
end the conversation. -/
def save_age (users : List UserRow) (uid : Int) (text : String) : List UserRow × AgeSaveOutcome :=
  match parse_int text with
  | none => (users, .reprompt_not_number)
  | some age =>
    if 16 ≤ age ∧ age ≤ 99 then
      (create_or_update_user users uid none (some age) none none, .accepted)
    else (users, .reprompt_range)

/-- SEARCH_COOLDOWN_SECONDS (line 48). -/
def SEARCH_COOLDOWN_SECONDS : Int := 5

/-- Python truthiness of a nullable text column (None and "" are falsy). -/
def truthyStr : Option String → Bool
  | none => false
  | some s => !(s == "")

/-- Python truthiness of a nullable integer column (None and 0 are falsy). -/
def truthyInt : Option Int → Bool
  | none => false
  | some n => !(n == 0)

/-- The profile completeness test of find_pair (lines 724-726): name, age,
description and photo_path must all be truthy. -/
def profile_filled (u : UserRow) : Bool :=
  truthyStr u.name && truthyInt u.age && truthyStr u.description && truthyStr u.photo_path

/-- Outcome of one find_pair call: rejected by the anti-spam gate, told to
complete the profile, no candidate left, or a candidate shown. -/
inductive SearchOutcome where
  | cooldown
  | need_profile
  | exhausted
  | shown (tg : Int)
deriving DecidableEq

/-- In-memory state read and written by find_pair: the last_search_time
dict, the viewed table and user_data current_profile. -/
structure SearchState where
  last_search_time : List (Int × Int)
  viewed : List (Int × Int)
  current_profile : Option Int
deriving DecidableEq

/-- The part of find_pair after the anti-spam gate (lines 724-778):
completeness check, candidate selection, and — only when a candidate is
shown — recording of the search time, of current_profile and of the view. -/
def find_pair_search (users : List UserRow) (st : SearchState) (uid now : Int) (k : Nat) :
    SearchState × SearchOutcome :=
  match get_user_by_tg_id users uid with
  | none => (st, .need_profile)
  | some u =>
    if profile_filled u then
      match get_next_profile users uid st.viewed now k with
      | none => (st, .exhausted)
      | some p =>
        (⟨dictSet st.last_search_time uid now,
          mark_viewed st.viewed uid p.tg_id,
          some p.tg_id⟩, .shown p.tg_id)
    else (st, .need_profile)

/-- find_pair (lines 713-778): the anti-spam gate rejects with no mutation
when a last search time is recorded for the actor and now - last is below
SEARCH_COOLDOWN_SECONDS; otherwise the search body runs. -/
def find_pair (users : List UserRow) (st : SearchState) (uid now : Int) (k : Nat) :
    SearchState × SearchOutcome :=
  match dictGet st.last_search_time uid with
  | some last =>
    if now - last < SEARCH_COOLDOWN_SECONDS then (st, .cooldown)
    else find_pair_search users st uid now k
  | none => find_pair_search users st uid now k

/-- A complete demo profile (internal id 1, telegram id 10) used by the
concrete scenario theorems. -/
def u_profile : UserRow :=
  ⟨1, 10, some "Ann", some 30, some "0123456789", some "p.jpg", 0, none, false, none⟩

/-- A second complete demo profile (internal id 2, telegram id 7),
eligible for discovery. -/
def v_profile : UserRow :=
  ⟨2, 7, some "Bob", some 25, some "abcdefghij", some "q.jpg", 0, none, false, none⟩

/-- Demo row for the report-mismatch scenario: the reported profile holds
internal id 1 but telegram id 42. -/
def report_target_demo : UserRow :=
  ⟨1, 42, some "Eve", some 21, some "0123456789", some "e.jpg", 0, none, false, none⟩

/-- Demo row occupying internal id 42, the row the admin view resolves when
report_target_demo (telegram id 42) is reported. -/
def wrong_displayed_demo : UserRow :=
  ⟨42, 99, some "Zed", some 33, some "0123456789", some "z.jpg", 0, none, false, none⟩

end MeetBot

namespace MeetBot

/-- C1 counterexample: with the owner configured as 5 and an empty
`admin_sessions` dict (so no valid admin session exists for anyone, at any
time), the super-admin guard nevertheless passes for actor 5 — refuting
the claim that it passes only when a valid admin session exists. -/
theorem C1_counterexample :
    super_admin_required ⟨some 5⟩ 5 = true ∧ admin_required [] 5 0 = false := by
  decide

/-- C1 amended: the super-admin guard passes exactly when the configured
owner identity is present and equals the actor id. Its definition consults
neither `admin_sessions` nor any stored `is_super` flag, so the outcome is
independent of both; but it also does not require any admin session. -/
theorem C1_super_admin_guard (cfg : Settings) (uid : Int) :
    super_admin_required cfg uid = true ↔ get_super_admin_id cfg = some uid := by
  unfold super_admin_required
  cases h : get_super_admin_id cfg with
  | none => simp
  | some sid =>
    simp only [beq_iff_eq, Option.some.injEq]
    constructor
    · intro hu; exact hu.symm
    · intro hu; exact hu.symm

/-- C6 counterexample: a session whose expiry equals the current time is
accepted by the admin guard (the code denies only when `expires < now`),
refuting the claim that a session is valid exactly when `now < expiry`. -/
theorem C6_counterexample :
    admin_required [(1, ⟨"root", 100, false, 1⟩)] 1 100 = true ∧ ¬ (100 < 100) := by
  decide

/-- C6 amended: the admin guard passes exactly when a session entry exists
for the actor and `now ≤ expiry` (equivalently, it denies when the entry
is absent or `expiry < now`); in particular a session with expiry in the
past yields the same denial as no session at all. -/
theorem C6_admin_session_validity (sessions : List (Int × AdminSession)) (uid now : Int) :
    admin_required sessions uid now = true ↔
      ∃ sess, dictGet sessions uid = some sess ∧ now ≤ sess.expires := by
  unfold admin_required
  cases h : dictGet sessions uid with
  | none => simp
  | some sess =>
    by_cases hlt : sess.expires < now
    · simp [hlt, not_le.mpr hlt]
    · simp [hlt, not_lt.mp hlt]

/-- C2 counterexample: in the trace where actor 1 likes 2, then 2 likes 1,
then 1 repeats the like on the already-mutual pair, the match notification
fires on the second action AND again on the third — two emissions for the
single pair, refuting "exactly once per completed pair, never again on any
subsequent like action". -/
theorem C2_counterexample :
    (run_likes [] [(1, 2), (2, 1), (1, 2)]).2 = [false, true, true] := by
  decide

/-- C2 amended: for distinct actors, a like action emits the match
notification exactly when the reverse like already exists — hence never on
a first-direction insert, on the insertion completing the second
direction, and again on every repeated like of an already-mutual pair. -/
theorem C2_match_notification (likes : List (Int × Int)) (u v : Int) (huv : u ≠ v) :
    (like_step likes u v).2 = true ↔ (v, u) ∈ likes := by
  unfold like_step check_mutual_like add_like
  by_cases hmem : (u, v) ∈ likes
  · simp [hmem]
  · simp [hmem, Prod.ext_iff, Ne.symm huv]

/-- Witness for C2_match_notification at likes = [(2, 1)], action (1, 2):
the notification fires on the second-direction insert. -/
theorem C2_match_notification_witness :
    (1 : Int) ≠ 2 ∧
      ((like_step [(2, 1)] 1 2).2 = true ↔ ((2 : Int), (1 : Int)) ∈ [(((2 : Int), (1 : Int)))]) :=
  ⟨by decide, C2_match_notification [(2, 1)] 1 2 (by decide)⟩

/-- C7: when the caller has a session entry and the admin row found for the
submitted username has the same id as the session's bound account id, the
handler returns the distinct self-deletion refusal and the admins table is
unchanged. -/
theorem C7_self_delete_protection (admins : List AdminRow) (sessions : List (Int × AdminSession))
    (uid : Int) (username : String) (target : AdminRow) (sess : AdminSession)
    (h1 : get_admin_by_username admins username = some target)
    (h2 : dictGet sessions uid = some sess)
    (h3 : target.id = sess.db_admin_id) :
    delete_admin_by_name admins sessions uid username = (admins, DeleteAdminOutcome.self_delete) := by
  unfold delete_admin_by_name
  simp [h1, h2, h3]

/-- Witness for C7_self_delete_protection on a one-admin table whose only
session binds the caller to that same account. -/
theorem C7_witness :
    delete_admin_by_name [⟨1, "root", "h", "s", true⟩] [(5, ⟨"root", 100, true, 1⟩)] 5 "root"
      = ([⟨1, "root", "h", "s", true⟩], DeleteAdminOutcome.self_delete) :=
  C7_self_delete_protection [⟨1, "root", "h", "s", true⟩] [(5, ⟨"root", 100, true, 1⟩)]
    5 "root" ⟨1, "root", "h", "s", true⟩ ⟨"root", 100, true, 1⟩ rfl rfl rfl

/-- C10: a caller with no entry in admin_sessions who submits the username
of an existing admin hits the unchecked `admin_sessions[...]` indexing and
the step raises KeyError; moreover the bare /delete_admin command handler
is registered in main without any guard decorator, so this state is
reachable. -/
theorem C10_delete_admin_keyerror (admins : List AdminRow) (sessions : List (Int × AdminSession))
    (uid : Int) (username : String) (target : AdminRow)
    (h1 : dictGet sessions uid = none)
    (h2 : get_admin_by_username admins username = some target) :
    (delete_admin_by_name admins sessions uid username).2 = DeleteAdminOutcome.key_error ∧
      (main_command_handlers.find? (fun r => r.command == "delete_admin")).map (·.guard)
        = some Guard.unguarded := by
  constructor
  · unfold delete_admin_by_name
    simp [h1, h2]
  · decide

/-- Witness for C10_delete_admin_keyerror: caller 5 has no session and
submits the name of the sole existing admin. -/
theorem C10_witness :
    (delete_admin_by_name [⟨1, "root", "h", "s", true⟩] [] 5 "root").2 = DeleteAdminOutcome.key_error ∧
      (main_command_handlers.find? (fun r => r.command == "delete_admin")).map (·.guard)
        = some Guard.unguarded :=
  C10_delete_admin_keyerror [⟨1, "root", "h", "s", true⟩] [] 5 "root" ⟨1, "root", "h", "s", true⟩ rfl rfl

/-- Unpacking of the eligibility test into its four clauses. -/
theorem eligible_iff (uid : Int) (viewed : List (Int × Int)) (now : Int) (u : UserRow) :
    eligible uid viewed now u = true ↔
      u.tg_id ≠ uid ∧ u.tg_id ∉ viewed_by viewed uid ∧
        (u.frozen_until = none ∨ ∃ t, u.frozen_until = some t ∧ t < now) ∧
        u.banned = false := by
  unfold eligible
  cases hf : u.frozen_until with
  | none => simp [hf, and_assoc]
  | some t => simp [hf, and_assoc]

/-- Selection by an index reduced modulo the length yields none exactly on
the empty list. -/
theorem getElem?_mod_eq_none_iff {α : Type} (l : List α) (k : Nat) :
    l[k % l.length]? = none ↔ l = [] := by
  cases l with
  | nil => simp
  | cons a t =>
    constructor
    · intro hnone
      have hk : k % (a :: t).length < (a :: t).length := Nat.mod_lt _ (by simp)
      rw [List.getElem?_eq_getElem hk] at hnone
      exact Option.noConfusion hnone
    · intro h
      exact absurd h (by simp)

/-- C4: any profile returned by get_next_profile satisfies every clause of
the eligibility predicate (so a banned profile is never returned, whatever
its freeze state), and the result is none exactly when no row of the users
table is eligible. -/
theorem C4_candidate_selection (users : List UserRow) (uid : Int)
    (viewed : List (Int × Int)) (now : Int) (k : Nat) :
    (∀ u, get_next_profile users uid viewed now k = some u →
        u.tg_id ≠ uid ∧ u.tg_id ∉ viewed_by viewed uid ∧ u.banned = false ∧
          (u.frozen_until = none ∨ ∃ t, u.frozen_until = some t ∧ t < now)) ∧
      (∀ u, u.banned = true → get_next_profile users uid viewed now k ≠ some u) ∧
      (get_next_profile users uid viewed now k = none ↔
        ∀ u ∈ users, eligible uid viewed now u = false) := by
  have hpart1 : ∀ u, get_next_profile users uid viewed now k = some u →
      u.tg_id ≠ uid ∧ u.tg_id ∉ viewed_by viewed uid ∧ u.banned = false ∧
        (u.frozen_until = none ∨ ∃ t, u.frozen_until = some t ∧ t < now) := by
    intro u hu
    have hmem : u ∈ users.filter (eligible uid viewed now) := List.getElem?_mem hu
    have helig := (List.mem_filter.mp hmem).2
    obtain ⟨h1, h2, h3, h4⟩ := (eligible_iff uid viewed now u).mp helig
    exact ⟨h1, h2, h4, h3⟩
  refine ⟨hpart1, ?_, ?_⟩
  · intro u hban hsome
    exact absurd ((hpart1 u hsome).2.2.1) (by simp [hban])
  · rw [show get_next_profile users uid viewed now k =
        (users.filter (eligible uid viewed now))[k % (users.filter (eligible uid viewed now)).length]?
        from rfl]
    rw [getElem?_mod_eq_none_iff, List.filter_eq_nil_iff]
    constructor
    · intro hall u hu
      simpa using hall u hu
    · intro hall u hu
      simp [hall u hu]

/-- Witness for C4_candidate_selection: a one-row table whose row is
eligible for actor 1 is returned and satisfies every clause. -/
theorem C4_witness :
    v_profile.tg_id ≠ 1 ∧ v_profile.tg_id ∉ viewed_by [] 1 ∧ v_profile.banned = false ∧
      (v_profile.frozen_until = none ∨ ∃ t, v_profile.frozen_until = some t ∧ t < 0) :=
  (C4_candidate_selection [v_profile] 1 [] 0 0).1 v_profile rfl

/-- C3: saving a report for a profile stores the profile's telegram id in
the target column, and for any reported profile whose internal row id
differs from its telegram id the admin view either skips the report or
displays (and offers to ban) a different profile than the reported one. -/
theorem C3_report_target_mismatch (users : List UserRow) (reports : List ReportRow)
    (reporter : Int) (reason : String) (u : UserRow) (hne : u.id ≠ u.tg_id) :
    ∀ r ∈ (save_report reports reporter (some u.tg_id) reason).1, r ∉ reports →
      r.target_id = u.tg_id ∧
        (admin_report_view users r = ReportView.skipped ∨
          ∃ v, admin_report_view users r = ReportView.displayed v ∧ v.id ≠ u.id ∧ v ≠ u) := by
  intro r hr hnotold
  have hr' : r ∈ reports ++ [(⟨next_report_id reports, reporter, u.tg_id, reason, 0, false⟩ : ReportRow)] := hr
  rcases List.mem_append.mp hr' with hold | hnew
  · exact absurd hold hnotold
  · have hreq : r = ⟨next_report_id reports, reporter, u.tg_id, reason, 0, false⟩ := by
      simpa using hnew
    subst hreq
    refine ⟨rfl, ?_⟩
    unfold admin_report_view
    cases hv : get_user_by_id users u.tg_id with
    | none => exact Or.inl rfl
    | some v =>
      refine Or.inr ⟨v, rfl, ?_, ?_⟩
      · have hvid : v.id = u.tg_id := by simpa using List.find?_some hv
        rw [hvid]
        exact fun h2 => hne h2.symm
      · intro hvu
        have hvid : v.id = u.tg_id := by simpa using List.find?_some hv
        rw [hvu] at hvid
        exact hne hvid

/-- Witness for C3_report_target_mismatch: profile with internal id 1 and
telegram id 42 is reported while internal id 42 belongs to another row;
the admin view resolves the report to that other row. -/
theorem C3_witness :
    (⟨1, 7, 42, "spam", 0, false⟩ : ReportRow).target_id = report_target_demo.tg_id ∧
      (admin_report_view [report_target_demo, wrong_displayed_demo] ⟨1, 7, 42, "spam", 0, false⟩
          = ReportView.skipped ∨
        ∃ v, admin_report_view [report_target_demo, wrong_displayed_demo] ⟨1, 7, 42, "spam", 0, false⟩
            = ReportView.displayed v ∧ v.id ≠ report_target_demo.id ∧ v ≠ report_target_demo) :=
  C3_report_target_mismatch [report_target_demo, wrong_displayed_demo] [] 7 "spam"
    report_target_demo (by decide) ⟨1, 7, 42, "spam", 0, false⟩ (by decide) (by decide)

/-- C8 counterexample: submitting "17" in the age-editing step is accepted
by save_age (17 lies inside the code's range [16, 99]), the profile's age
is updated to 17 and the conversation ends — refuting the claim that "17"
yields a ValidationError with no profile change. -/
theorem C8_counterexample :
    (save_age [u_profile] 10 "17").2 = AgeSaveOutcome.accepted ∧
      (get_user_by_tg_id (save_age [u_profile] 10 "17").1 10).map (·.age) = some (some 17) := by
  decide

/-- C8 amended: a genuinely out-of-range input such as "15" is rejected
with a re-prompt of the same step and no profile change, while "45" is
accepted, updates the age and ends the conversation. -/
theorem C8_age_scenario :
    (save_age [u_profile] 10 "15").1 = [u_profile] ∧
      (save_age [u_profile] 10 "15").2 = AgeSaveOutcome.reprompt_range ∧
      (save_age [u_profile] 10 "45").2 = AgeSaveOutcome.accepted ∧
      (get_user_by_tg_id (save_age [u_profile] 10 "45").1 10).map (·.age) = some (some 45) := by
  decide

/-- C9: a partial update of an existing profile preserves the row count
(no row is deleted), replaces each row by its updated image (rows with a
different key unchanged), and the update touches only the supplied
profile fields: id, tg_id, created_at, frozen_until, banned and ban_reason
always keep their values, an unsupplied field keeps its value, a supplied
field takes the supplied value. -/
theorem C9_partial_update (users : List UserRow) (tg_id : Int) (name : Option String)
    (age : Option Int) (description photo_path : Option String)
    (h : (get_user_by_tg_id users tg_id).isSome = true) :
    (create_or_update_user users tg_id name age description photo_path).length = users.length ∧
      (∀ v ∈ users,
        (if v.tg_id = tg_id then apply_user_update name age description photo_path v else v)
          ∈ create_or_update_user users tg_id name age description photo_path) ∧
      (∀ v : UserRow,
        (apply_user_update name age description photo_path v).id = v.id ∧
        (apply_user_update name age description photo_path v).tg_id = v.tg_id ∧
        (apply_user_update name age description photo_path v).created_at = v.created_at ∧
        (apply_user_update name age description photo_path v).frozen_until = v.frozen_until ∧
        (apply_user_update name age description photo_path v).banned = v.banned ∧
        (apply_user_update name age description photo_path v).ban_reason = v.ban_reason ∧
        (name = none → (apply_user_update name age description photo_path v).name = v.name) ∧
        (age = none → (apply_user_update name age description photo_path v).age = v.age) ∧
        (description = none →
          (apply_user_update name age description photo_path v).description = v.description) ∧
        (photo_path = none →
          (apply_user_update name age description photo_path v).photo_path = v.photo_path) ∧
        (∀ x, name = some x → (apply_user_update name age description photo_path v).name = some x) ∧
        (∀ x, age = some x → (apply_user_update name age description photo_path v).age = some x) ∧
        (∀ x, description = some x →
          (apply_user_update name age description photo_path v).description = some x) ∧
        (∀ x, photo_path = some x →
          (apply_user_update name age description photo_path v).photo_path = some x)) := by
  obtain ⟨u0, hu0⟩ := Option.isSome_iff_exists.mp h
  have hdef : create_or_update_user users tg_id name age description photo_path =
      users.map (fun u =>
        if u.tg_id == tg_id then apply_user_update name age description photo_path u else u) := by
    unfold create_or_update_user
    rw [hu0]
  refine ⟨?_, ?_, ?_⟩
  · rw [hdef]
    exact List.length_map _ _
  · intro v hv
    rw [hdef]
    have hmap := List.mem_map_of_mem
      (fun u => if u.tg_id == tg_id then apply_user_update name age description photo_path u else u) hv
    by_cases hvt : v.tg_id = tg_id
    · simpa [hvt] using hmap
    · simpa [hvt] using hmap
  · intro v
    unfold apply_user_update coalesce
    cases name <;> cases age <;> cases description <;> cases photo_path <;> simp

/-- Witness for C9_partial_update: a name-only update of the demo profile
keeps the table length. -/
theorem C9_witness :
    (create_or_update_user [u_profile] 10 (some "Bo") none none none).length = [u_profile].length :=
  (C9_partial_update [u_profile] 10 (some "Bo") none none none rfl).1

/-- Writing a key into a dict and reading it back yields the written
value. -/
theorem dictGet_dictSet {α : Type} (m : List (Int × α)) (k : Int) (v : α) :
    dictGet (dictSet m k v) k = some v := by
  unfold dictGet dictSet
  simp

/-- Behaviour of the post-gate body of find_pair: it never reports
cooldown, it leaves the state unchanged unless a candidate is shown, and
when one is shown the cooldown timestamp dict records now for the actor. -/
theorem find_pair_search_spec (users : List UserRow) (st : SearchState) (uid now : Int) (k : Nat) :
    (find_pair_search users st uid now k).2 ≠ SearchOutcome.cooldown ∧
      (((find_pair_search users st uid now k).2 = SearchOutcome.need_profile ∨
          (find_pair_search users st uid now k).2 = SearchOutcome.exhausted) →
        (find_pair_search users st uid now k).1 = st) ∧
      (∀ tg, (find_pair_search users st uid now k).2 = SearchOutcome.shown tg →
        (find_pair_search users st uid now k).1.last_search_time
          = dictSet st.last_search_time uid now) := by
  cases hu : get_user_by_tg_id users uid with
  | none => simp [find_pair_search, hu]
  | some u =>
    by_cases hf : profile_filled u = true
    · cases hn : get_next_profile users uid st.viewed now k with
      | none => simp [find_pair_search, hu, hf, hn]
      | some p => simp [find_pair_search, hu, hf, hn]
    · simp [find_pair_search, hu, hf]

/-- C5 counterexample: actor 1 has no prior record, so the claim demands
that the call succeed and record now = 100; the call is indeed not
rate-limited, but because the actor has no complete profile nothing is
recorded and the rate-limit state stays empty. -/
theorem C5_counterexample :
    (find_pair [] ⟨[], [], none⟩ 1 100 0).2 ≠ SearchOutcome.cooldown ∧
      (find_pair [] ⟨[], [], none⟩ 1 100 0).1.last_search_time = [] := by
  decide

/-- C5 amended: the gate rejects exactly when a record exists and now -
last is under the 5-second window, and a rejected call mutates nothing;
a non-rejected call records now as the actor's last-allowed time exactly
when a candidate is shown — when the profile is incomplete or the pool is
exhausted the state (rate-limit dict included) is left unchanged. -/
theorem C5_rate_limiter (users : List UserRow) (st : SearchState) (uid now : Int) (k : Nat) :
    ((find_pair users st uid now k).2 = SearchOutcome.cooldown ↔
        ∃ last, dictGet st.last_search_time uid = some last ∧
          now - last < SEARCH_COOLDOWN_SECONDS) ∧
      ((find_pair users st uid now k).2 = SearchOutcome.cooldown →
        (find_pair users st uid now k).1 = st) ∧
      (∀ tg, (find_pair users st uid now k).2 = SearchOutcome.shown tg →
        dictGet (find_pair users st uid now k).1.last_search_time uid = some now) ∧
      (((find_pair users st uid now k).2 = SearchOutcome.need_profile ∨
          (find_pair users st uid now k).2 = SearchOutcome.exhausted) →
        (find_pair users st uid now k).1 = st) := by
  have hs := find_pair_search_spec users st uid now k
  cases hlast : dictGet st.last_search_time uid with
  | none =>
    have hfp : find_pair users st uid now k = find_pair_search users st uid now k := by
      simp [find_pair, hlast]
    rw [hfp]
    refine ⟨?_, ?_, ?_, ?_⟩
    · constructor
      · intro hc
        exact absurd hc hs.1
      · rintro ⟨last, hl, _⟩
        exact Option.noConfusion hl
    · intro hc
      exact absurd hc hs.1
    · intro tg htg
      rw [hs.2.2 tg htg, dictGet_dictSet]
    · exact hs.2.1
  | some last =>
    by_cases hc5 : now - last < SEARCH_COOLDOWN_SECONDS
    · have hfp : find_pair users st uid now k = (st, SearchOutcome.cooldown) := by
        simp [find_pair, hlast, hc5]
      rw [hfp]
      refine ⟨?_, fun _ => rfl, ?_, ?_⟩
      · exact ⟨fun _ => ⟨last, rfl, hc5⟩, fun _ => rfl⟩
      · intro tg htg
        exact absurd htg (by simp)
      · intro hor
        rcases hor with hcase | hcase <;> exact absurd hcase (by simp)
    · have hfp : find_pair users st uid now k = find_pair_search users st uid now k := by
        simp [find_pair, hlast, hc5]
      rw [hfp]
      refine ⟨?_, ?_, ?_, ?_⟩
      · constructor
        · intro hc
          exact absurd hc hs.1
        · rintro ⟨last2, hl2, hlt2⟩
          cases Option.some.inj hl2
          exact absurd hlt2 hc5
      · intro hc
        exact absurd hc hs.1
      · intro tg htg
        rw [hs.2.2 tg htg, dictGet_dictSet]
      · exact hs.2.1

/-- Witness for C5_rate_limiter: a second call two seconds after a
recorded search is rejected and mutates nothing. -/
theorem C5_witness :
    (find_pair [] ⟨[(1, 98)], [], none⟩ 1 100 0).1 = ⟨[(1, 98)], [], none⟩ :=
  (C5_rate_limiter [] ⟨[(1, 98)], [], none⟩ 1 100 0).2.1 (by decide)

end MeetBot
